import Mathlib

/-!
Shallow embedding of `src/examples/excel-demo/mortgage_calculator.py`.

The script builds an Excel workbook with openpyxl: a primary sheet
("Mortgage Calculator") holding four literal inputs, five result formulas and
a 360-row amortization table of formula strings; a "Yearly Summary" sheet of
30 aggregate rows; a static "Instructions" sheet; then saves the workbook as
`Mortgage_Payment_Calculator.xlsx`.  Every cell write below is translated
from the source: formula strings are built by the same concatenations the
Python f-strings perform, with the same row arithmetic.
-/

/-- A cell's content.  openpyxl stores numbers and strings as written; a
string whose text starts with `=` is treated by the spreadsheet as a formula,
which `cellOfString` mirrors. -/
inductive CellValue where
  | num (q : ℚ)
  | str (s : String)
  | formula (f : String)
deriving DecidableEq

/-- A string written to a cell is a formula exactly when its first character
is `=` (openpyxl / spreadsheet convention); otherwise it is a text literal. -/
def cellOfString (s : String) : CellValue :=
  if s.toList.head? = some '=' then .formula s else .str s

/-- A cell holds a literal (user-editable) value iff it is not a formula. -/
def CellValue.isLiteral : CellValue → Bool
  | .formula _ => false
  | .num _ => true
  | .str _ => true

/-- Source line 21: `currency_format = '"$"#,##0.00'`. -/
def currency_format : String := "\"$\"#,##0.00"

/-- Source line 22: `percent_format = '0.00%'`. -/
def percent_format : String := "0.00%"

/-- One entry of the `inputs` list (source lines 42-47): label cell, label
text, value cell, literal value, number-format string. -/
structure InputRow where
  labelCell : String
  label : String
  valueCell : String
  value : CellValue
  fmt : String
deriving DecidableEq

/-- Source lines 42-47: the four loan-input rows. -/
def inputs : List InputRow :=
  [ ⟨"B6", "Loan Amount:", "C6", .num 300000, currency_format⟩,
    ⟨"B7", "Annual Interest Rate:", "C7", .num (65/1000), percent_format⟩,
    ⟨"B8", "Loan Term (Years):", "C8", .num 30, "0"⟩,
    ⟨"B9", "Start Date:", "C9", cellOfString "2025-01-01", "YYYY-MM-DD"⟩ ]

/-- Source lines 55-56: inside the input loop, `number_format` is assigned
only when the format string differs from `"YYYY-MM-DD"`. -/
def appliedNumberFormat (r : InputRow) : Option String :=
  if r.fmt ≠ "YYYY-MM-DD" then some r.fmt else none

/-- Look up the input row whose value cell is `c`. -/
def inputAt (c : String) : Option InputRow :=
  inputs.find? (fun r => r.valueCell == c)

/-- Source line 67: formula written to C13. -/
def monthlyPaymentFormula : String := "=-PMT(C7/12, C8*12, C6)"

/-- Source line 74: formula written to C14. -/
def totalPaymentsFormula : String := "=C8*12"

/-- Source line 80: formula written to C15. -/
def totalAmountPaidFormula : String := "=C13*C14"

/-- Source line 87: formula written to C16. -/
def totalInterestPaidFormula : String := "=C15-C6"

/-- Source line 94: formula written to C17. -/
def interestRatioFormula : String := "=C16/C6"

/-- Source line 116: `max_payments = 360`. -/
def max_payments : Nat := 360

/-- Source line 119: the sheet row used for payment index `i` is `22 + i`. -/
def amortRow (i : Nat) : Nat := 22 + i

/-- The list of sheet rows the amortization loop writes (source line 118:
`for i in range(1, max_payments + 1)`). -/
def amortRows : List Nat := (List.range max_payments).map (fun k => amortRow (k + 1))

/-- Source line 122: column B, `=IF({i}<=C$8*12, {i}, "")`. -/
def paymentNumberFormula (i : Nat) : String :=
  "=IF(" ++ toString i ++ "<=C$8*12, " ++ toString i ++ ", \"\")"

/-- Source line 126: column C, `=IF(B{row}<>"", EDATE(C$9, {i}-1), "")`. -/
def paymentDateFormula (i : Nat) : String :=
  "=IF(B" ++ toString (amortRow i) ++ "<>\"\", EDATE(C$9, " ++ toString i ++ "-1), \"\")"

/-- Source line 130: column D, `=IF(B{row}<>"", C$13, "")`. -/
def paymentAmountFormula (i : Nat) : String :=
  "=IF(B" ++ toString (amortRow i) ++ "<>\"\", C$13, \"\")"

/-- Source lines 134-137: column E, special-cased at `i = 1` to use C$6,
otherwise referencing `H{row-1}`. -/
def principalFormula (i : Nat) : String :=
  if i = 1 then
    "=IF(B" ++ toString (amortRow i) ++ "<>\"\", C$13-(C$6*C$7/12), \"\")"
  else
    "=IF(B" ++ toString (amortRow i) ++ "<>\"\", C$13-(H" ++ toString (amortRow i - 1) ++ "*C$7/12), \"\")"

/-- Source lines 141-144: column F, special-cased at `i = 1`. -/
def interestFormula (i : Nat) : String :=
  if i = 1 then
    "=IF(B" ++ toString (amortRow i) ++ "<>\"\", C$6*C$7/12, \"\")"
  else
    "=IF(B" ++ toString (amortRow i) ++ "<>\"\", H" ++ toString (amortRow i - 1) ++ "*C$7/12, \"\")"

/-- Source line 148: column G, a literal `0` in every amortization row. -/
def extraPaymentValue (i : Nat) : CellValue :=
  match i with
  | _ => .num 0

/-- Source lines 153-156: column H, special-cased at `i = 1`. -/
def balanceFormula (i : Nat) : String :=
  if i = 1 then
    "=IF(B" ++ toString (amortRow i) ++ "<>\"\", MAX(0, C$6-E" ++ toString (amortRow i) ++ "-G" ++ toString (amortRow i) ++ "), \"\")"
  else
    "=IF(B" ++ toString (amortRow i) ++ "<>\"\", MAX(0, H" ++ toString (amortRow i - 1) ++ "-E" ++ toString (amortRow i) ++ "-G" ++ toString (amortRow i) ++ "), \"\")"

/-- Source line 181: the summary-sheet row used for `year` is `4 + year`. -/
def summaryRow (year : Nat) : Nat := 4 + year

/-- Source line 182: `start_payment = (year - 1) * 12 + 1`. -/
def start_payment (year : Nat) : Nat := (year - 1) * 12 + 1

/-- Source line 183: `end_payment = year * 12`. -/
def end_payment (year : Nat) : Nat := year * 12

/-- Source line 186: summary column B,
`=IF({year}<='Mortgage Calculator'!C$8, {year}, "")`. -/
def yearNumberFormula (year : Nat) : String :=
  "=IF(" ++ toString year ++ "<='Mortgage Calculator'!C$8, " ++ toString year ++ ", \"\")"

/-- Source line 192: summary column C, a SUMPRODUCT over column E of the
primary sheet keyed on the payment-number range B$23:B$382. -/
def principalPaidFormula (year : Nat) : String :=
  "=IF(B" ++ toString (summaryRow year) ++ "<>\"\", SUMPRODUCT(('Mortgage Calculator'!B$23:B$382>=" ++ toString (start_payment year) ++ ")*('Mortgage Calculator'!B$23:B$382<=" ++ toString (end_payment year) ++ ")*('Mortgage Calculator'!E$23:E$382)), \"\")"

/-- Source line 196: summary column D, same aggregate over column F. -/
def interestPaidFormula (year : Nat) : String :=
  "=IF(B" ++ toString (summaryRow year) ++ "<>\"\", SUMPRODUCT(('Mortgage Calculator'!B$23:B$382>=" ++ toString (start_payment year) ++ ")*('Mortgage Calculator'!B$23:B$382<=" ++ toString (end_payment year) ++ ")*('Mortgage Calculator'!F$23:F$382)), \"\")"

/-- Source line 200: summary column E, `=IF(B{row}<>"", C{row}+D{row}, "")`. -/
def totalPaidFormula (year : Nat) : String :=
  "=IF(B" ++ toString (summaryRow year) ++ "<>\"\", C" ++ toString (summaryRow year) ++ "+D" ++ toString (summaryRow year) ++ ", \"\")"

/-- Source lines 204-205: summary column F references the primary sheet's
balance cell at row `22 + end_payment`. -/
def endBalanceFormula (year : Nat) : String :=
  "=IF(B" ++ toString (summaryRow year) ++ "<>\"\", 'Mortgage Calculator'!H" ++ toString (22 + end_payment year) ++ ", \"\")"

/-- openpyxl: a fresh workbook has one active sheet named "Sheet". -/
def newWorkbookSheets : List String := ["Sheet"]

/-- openpyxl: `ws.title = t` renames the active (first) sheet. -/
def setTitle (sheets : List String) (t : String) : List String :=
  match sheets with
  | [] => [t]
  | _ :: rest => t :: rest

/-- openpyxl: `wb.create_sheet(t)` appends a sheet at the end. -/
def create_sheet (sheets : List String) (t : String) : List String :=
  sheets ++ [t]

/-- Outcome of running the script: final sheet order, the filename passed to
`wb.save`, the success message printed, and the value returned. -/
structure SaveResult where
  sheets : List String
  filename : String
  printed : String
  returned : String
deriving DecidableEq

/-- Source lines 10-256: the workbook-level effects of
`create_mortgage_calculator` — sheet creation order (lines 12-14, 164, 213)
and the save / report step (lines 253-256). -/
def create_mortgage_calculator : SaveResult :=
  let sheets0 := newWorkbookSheets
  let sheets1 := setTitle sheets0 "Mortgage Calculator"
  let sheets2 := create_sheet sheets1 "Yearly Summary"
  let sheets3 := create_sheet sheets2 "Instructions"
  let filename := "Mortgage_Payment_Calculator.xlsx"
  { sheets := sheets3
    filename := filename
    printed := "Successfully created: " ++ filename
    returned := filename }

/-- An uppercase column letter. -/
def isColLetter (c : Char) : Bool := 'A' ≤ c && c ≤ 'Z'

/-- A single-letter cell reference occurring in a formula string: column
letter, whether the row number is `$`-anchored, and the row number. -/
structure CellRef where
  col : Char
  rowAbs : Bool
  row : Nat
deriving DecidableEq

/-- State of the reference scanner while walking a formula string. -/
inductive ScanState where
  | idle (prevAlpha : Bool)
  | sawCol (col : Char)
  | sawAbs (col : Char)
  | sawDigits (col : Char) (rowAbs : Bool) (acc : Nat)

/-- One step of the reference scanner.  A reference is an uppercase letter
not preceded by a letter, then an optional `$`, then one or more digits. -/
def scanStep (st : ScanState) (out : List CellRef) (c : Char) :
    ScanState × List CellRef :=
  match st with
  | .idle prevAlpha =>
      if isColLetter c && !prevAlpha then (.sawCol c, out)
      else (.idle c.isAlpha, out)
  | .sawCol col =>
      if c = '$' then (.sawAbs col, out)
      else if c.isDigit then (.sawDigits col false (c.toNat - 48), out)
      else (.idle c.isAlpha, out)
  | .sawAbs col =>
      if c.isDigit then (.sawDigits col true (c.toNat - 48), out)
      else (.idle c.isAlpha, out)
  | .sawDigits col ab acc =>
      if c.isDigit then (.sawDigits col ab (acc * 10 + (c.toNat - 48)), out)
      else if isColLetter c then (.sawCol c, out ++ [⟨col, ab, acc⟩])
      else (.idle c.isAlpha, out ++ [⟨col, ab, acc⟩])

/-- All cell references occurring in a formula string, left to right. -/
def cellRefs (s : String) : List CellRef :=
  match s.toList.foldl (fun p c => scanStep p.1 p.2 c) (ScanState.idle false, []) with
  | (.sawDigits col ab acc, out) => out ++ [⟨col, ab, acc⟩]
  | (_, out) => out

/-- The referenced cells of a formula, as (column letter, row) pairs. -/
def refCells (s : String) : List (Char × Nat) :=
  (cellRefs s).map (fun r => (r.col, r.row))

/-- The four input value cells of the primary sheet. -/
def inputCells : List (Char × Nat) := [('C', 6), ('C', 7), ('C', 8), ('C', 9)]

/-- Modelled from the spec: the spreadsheet `PMT` function is evaluated by the
spreadsheet application and is not part of this repository; the spec gives its
semantics as the standard amortization formula
`rate * principal / (1 - (1+rate)^(-n))`, returned negative for loan
payments. -/
def PMT (r : ℚ) (n : ℕ) (p : ℚ) : ℚ := -(r * p / (1 - (1 + r)⁻¹ ^ n))

/-- The value the formula `=-PMT(C7/12, C8*12, C6)` evaluates to under the
default inputs C6 = 300000, C7 = 0.065, C8 = 30. -/
def monthlyPaymentValue : ℚ := -PMT (65/1000 / 12) (30 * 12) 300000

/-- Modelled from the spec: spreadsheet `IF` rendering of the payment-number
formula `=IF(i<=C$8*12, i, "")` with term-in-years `term`; it renders the
index when `i ≤ term*12` and blank (`none`) otherwise. -/
def renderPaymentNumber (term i : ℕ) : Option ℕ :=
  if i ≤ term * 12 then some i else none

/-- Modelled from the spec: spreadsheet `IF` rendering of the yearly-summary
year cell `=IF(year<='Mortgage Calculator'!C$8, year, "")`; it renders the
year when `year ≤ term` and blank (`none`) otherwise.  Every other formula in
that summary row is guarded by `IF(B{row}<>"", …, "")`, so it renders blank
exactly when this cell does. -/
def renderYearNumber (term year : ℕ) : Option ℕ :=
  if year ≤ term then some year else none

set_option maxRecDepth 40000 in
/-- Scanner check of the whole principal-portion dependency chain: for every
`k < 359` the formula of payment index `k + 2` (sheet row `24 + k`) references
exactly the guard cell of its own row, C$13, the balance cell `H(23 + k)` of
the previous row, and C$7. -/
theorem principalChainScan :
    ((List.range 359).all fun k =>
      refCells (principalFormula (k + 2)) ==
        [('B', 24 + k), ('C', 13), ('H', 23 + k), ('C', 7)]) = true := by decide

/-- C1: for every payment index `i` with `2 ≤ i ≤ 360` the principal-portion
formula written at primary-sheet row `22 + i` references the balance cell
`H(21 + i)` of row `21 + i` by its explicit spelled-out cell address, and for
`i = 1` it references the loan-amount input cell C$6 instead; the
scanner-checked reference chain is unbroken for every `i` in `1..360`. -/
theorem principal_dependency_chain (i : Nat) (h1 : 1 ≤ i) (h2 : i ≤ 360) :
    (2 ≤ i → principalFormula i =
        "=IF(B" ++ toString (22 + i) ++ "<>\"\", C$13-(H" ++ toString (21 + i) ++ "*C$7/12), \"\")")
    ∧ (i = 1 → refCells (principalFormula i) = [('B', 23), ('C', 13), ('C', 6), ('C', 7)])
    ∧ ((List.range 359).all fun k =>
        refCells (principalFormula (k + 2)) ==
          [('B', 24 + k), ('C', 13), ('H', 23 + k), ('C', 7)]) = true := by
  refine ⟨?_, ?_, principalChainScan⟩
  · intro hi2
    have hne : i ≠ 1 := by omega
    have h21 : 22 + i - 1 = 21 + i := by omega
    simp only [principalFormula, amortRow, if_neg hne, h21]
  · intro hi1
    subst hi1
    decide

/-- Witness for C1 at `i = 2`. -/
theorem principal_dependency_chain_witness :
    (1 ≤ 2 ∧ 2 ≤ 360)
    ∧ ((2 ≤ 2 → principalFormula 2 =
          "=IF(B" ++ toString (22 + 2) ++ "<>\"\", C$13-(H" ++ toString (21 + 2) ++ "*C$7/12), \"\")")
      ∧ (2 = 1 → refCells (principalFormula 2) = [('B', 23), ('C', 13), ('C', 6), ('C', 7)])
      ∧ ((List.range 359).all fun k =>
          refCells (principalFormula (k + 2)) ==
            [('B', 24 + k), ('C', 13), ('H', 23 + k), ('C', 7)]) = true) :=
  ⟨⟨by decide, by decide⟩, principal_dependency_chain 2 (by decide) (by decide)⟩

set_option maxRecDepth 40000 in
/-- The 360 amortization rows are exactly the sheet rows 23..382. -/
theorem amort_rows_eq : amortRows = (List.range 360).map (fun k => 23 + k) := by decide

/-- C2: whatever the term-in-years input, the amortization loop writes exactly
the 360 sheet rows 23..382 (the loop bound `max_payments = 360` does not
depend on the term), and the payment-number cell at row `22 + i` holds the
conditional formula `=IF(i<=C$8*12, i, "")`, which renders `i` when
`i ≤ term*12` and blank otherwise. -/
theorem amortization_table_rows (term i : Nat) (h1 : 1 ≤ i) (h2 : i ≤ 360) :
    amortRows = (List.range 360).map (fun k => 23 + k)
    ∧ amortRows.length = 360
    ∧ amortRow i = 22 + i ∧ 23 ≤ amortRow i ∧ amortRow i ≤ 382
    ∧ paymentNumberFormula i =
        "=IF(" ++ toString i ++ "<=C$8*12, " ++ toString i ++ ", \"\")"
    ∧ (i ≤ term * 12 → renderPaymentNumber term i = some i)
    ∧ (term * 12 < i → renderPaymentNumber term i = none) := by
  refine ⟨amort_rows_eq, by rw [amort_rows_eq]; simp, rfl, by simp [amortRow]; omega,
    by simp [amortRow]; omega, rfl, ?_, ?_⟩
  · intro h
    simp [renderPaymentNumber, h]
  · intro h
    simp [renderPaymentNumber]
    omega

/-- Witness for C2 at `term = 1`, `i = 13` (a row past the term, which
renders blank). -/
theorem amortization_table_rows_witness :
    (1 ≤ 13 ∧ 13 ≤ 360)
    ∧ (amortRows = (List.range 360).map (fun k => 23 + k)
      ∧ amortRows.length = 360
      ∧ amortRow 13 = 22 + 13 ∧ 23 ≤ amortRow 13 ∧ amortRow 13 ≤ 382
      ∧ paymentNumberFormula 13 =
          "=IF(" ++ toString 13 ++ "<=C$8*12, " ++ toString 13 ++ ", \"\")"
      ∧ (13 ≤ 1 * 12 → renderPaymentNumber 1 13 = some 13)
      ∧ (1 * 12 < 13 → renderPaymentNumber 1 13 = none)) :=
  ⟨⟨by decide, by decide⟩, amortization_table_rows 1 13 (by decide) (by decide)⟩

/-- Strict monotonicity of the powers entering the payment value. -/
theorem pow_lt_base : (2400:ℚ)^360 < 2413^360 := by
  gcongr
  norm_num

/-- Closed form of the monthly-payment value: with monthly rate `13/2400`,
`1 + r = 2413/2400`, so the payment equals `1625·A / (A − B)` with
`A = 2413^360`, `B = 2400^360`. -/
theorem mp_eq :
    monthlyPaymentValue = 1625 * (2413:ℚ)^360 / ((2413:ℚ)^360 - 2400^360) := by
  unfold monthlyPaymentValue PMT
  have h : ((1:ℚ) + 65/1000/12)⁻¹ = 2400/2413 := by norm_num
  rw [h, div_pow]
  have ha : ((2413:ℚ)^360) ≠ 0 := by positivity
  have hb : ((2413:ℚ)^360 - 2400^360) ≠ 0 := by
    have h2 := pow_lt_base
    linarith
  field_simp
  ring

/-- Integer inequality giving the lower payment bound `1896.15 < value`. -/
theorem mp_lower_nat : (27115:ℕ) * 2413^360 < 189615 * 2400^360 := by decide

/-- Integer inequality giving the upper payment bound `value < 1896.25`. -/
theorem mp_upper_nat : (189625:ℕ) * 2400^360 < 27125 * 2413^360 := by decide

/-- C3: cell C13 holds `=-PMT(C7/12, C8*12, C6)`, the negation of PMT applied
to the monthly rate, the total number of months and the loan amount; under the
default inputs (300000, 0.065, 30 years) the spec's amortization formula
evaluates to a value strictly between 1896.15 and 1896.25, i.e. approximately
1896.20. -/
theorem monthly_payment_value :
    monthlyPaymentFormula = "=-PMT(C7/12, C8*12, C6)"
    ∧ (189615:ℚ)/100 < monthlyPaymentValue ∧ monthlyPaymentValue < (189625:ℚ)/100 := by
  refine ⟨rfl, ?_, ?_⟩
  · rw [mp_eq]
    have hab : (0:ℚ) < 2413^360 - 2400^360 := by
      have := pow_lt_base
      linarith
    rw [lt_div_iff₀ hab]
    have k1 : (27115:ℚ) * 2413^360 < 189615 * 2400^360 := by exact_mod_cast mp_lower_nat
    linarith
  · rw [mp_eq]
    have hab : (0:ℚ) < 2413^360 - 2400^360 := by
      have := pow_lt_base
      linarith
    rw [div_lt_iff₀ hab]
    have k2 : (189625:ℚ) * 2400^360 < 27125 * 2413^360 := by exact_mod_cast mp_upper_nat
    linarith

/-- Scanner check of all 30 end-balance references: summary row `5 + k`
references exactly its own guard cell and the primary-sheet balance cell
`H(34 + 12k)`, i.e. `H(22 + 12·(k+1))`. -/
theorem endBalanceScan :
    ((List.range 30).all fun k =>
      refCells (endBalanceFormula (k + 1)) == [('B', 5 + k), ('H', 34 + 12 * k)]) = true := by
  decide

/-- C4: for every year `1 ≤ Y ≤ 30`, the end-balance formula at summary row
`4 + Y` reads the primary-sheet balance cell of amortization row `22 + 12·Y`
directly — its only cross-sheet reference is that single H cell. -/
theorem yearly_end_balance_reference (y : Nat) (h1 : 1 ≤ y) (h2 : y ≤ 30) :
    endBalanceFormula y =
      "=IF(B" ++ toString (4 + y) ++ "<>\"\", 'Mortgage Calculator'!H" ++ toString (22 + 12 * y) ++ ", \"\")"
    ∧ ((List.range 30).all fun k =>
        refCells (endBalanceFormula (k + 1)) == [('B', 5 + k), ('H', 34 + 12 * k)]) = true := by
  refine ⟨?_, endBalanceScan⟩
  have hm : end_payment y = 12 * y := by simp [end_payment]; ring
  simp only [endBalanceFormula, summaryRow, hm]

/-- Witness for C4 at `Y = 30` (balance row 382). -/
theorem yearly_end_balance_reference_witness :
    (1 ≤ 30 ∧ 30 ≤ 30)
    ∧ (endBalanceFormula 30 =
        "=IF(B" ++ toString (4 + 30) ++ "<>\"\", 'Mortgage Calculator'!H" ++ toString (22 + 12 * 30) ++ ", \"\")"
      ∧ ((List.range 30).all fun k =>
          refCells (endBalanceFormula (k + 1)) == [('B', 5 + k), ('H', 34 + 12 * k)]) = true) :=
  ⟨⟨by decide, by decide⟩, yearly_end_balance_reference 30 (by decide) (by decide)⟩

/-- C5: for every year `1 ≤ Y ≤ 30`, the summary row `4 + Y` aggregates
principal and interest with SUMPRODUCT formulas keyed on the payment-number
range B$23:B$382 falling within `[12·(Y-1)+1, 12·Y]`, columns E and F of the
amortization table, and total paid as their sum C+D of the same row; every
one of these formulas is guarded by `IF(B{row}<>"", …, "")` on the year cell,
which renders blank exactly when `Y` exceeds the term. -/
theorem yearly_aggregates (term y : Nat) (h1 : 1 ≤ y) (h2 : y ≤ 30) :
    principalPaidFormula y =
      "=IF(B" ++ toString (4 + y) ++ "<>\"\", SUMPRODUCT(('Mortgage Calculator'!B$23:B$382>=" ++ toString (12 * (y - 1) + 1) ++ ")*('Mortgage Calculator'!B$23:B$382<=" ++ toString (12 * y) ++ ")*('Mortgage Calculator'!E$23:E$382)), \"\")"
    ∧ interestPaidFormula y =
      "=IF(B" ++ toString (4 + y) ++ "<>\"\", SUMPRODUCT(('Mortgage Calculator'!B$23:B$382>=" ++ toString (12 * (y - 1) + 1) ++ ")*('Mortgage Calculator'!B$23:B$382<=" ++ toString (12 * y) ++ ")*('Mortgage Calculator'!F$23:F$382)), \"\")"
    ∧ totalPaidFormula y =
      "=IF(B" ++ toString (4 + y) ++ "<>\"\", C" ++ toString (4 + y) ++ "+D" ++ toString (4 + y) ++ ", \"\")"
    ∧ yearNumberFormula y =
      "=IF(" ++ toString y ++ "<='Mortgage Calculator'!C$8, " ++ toString y ++ ", \"\")"
    ∧ (term < y → renderYearNumber term y = none)
    ∧ (y ≤ term → renderYearNumber term y = some y) := by
  have hs : start_payment y = 12 * (y - 1) + 1 := by simp [start_payment]; ring
  have he : end_payment y = 12 * y := by simp [end_payment]; ring
  refine ⟨?_, ?_, rfl, rfl, ?_, ?_⟩
  · simp only [principalPaidFormula, summaryRow, hs, he]
  · simp only [interestPaidFormula, summaryRow, hs, he]
  · intro h
    simp [renderYearNumber]
    omega
  · intro h
    simp [renderYearNumber, h]

/-- Witness for C5 at `term = 2`, `Y = 3` (a year past the term, rendering
blank). -/
theorem yearly_aggregates_witness :
    (1 ≤ 3 ∧ 3 ≤ 30)
    ∧ (principalPaidFormula 3 =
        "=IF(B" ++ toString (4 + 3) ++ "<>\"\", SUMPRODUCT(('Mortgage Calculator'!B$23:B$382>=" ++ toString (12 * (3 - 1) + 1) ++ ")*('Mortgage Calculator'!B$23:B$382<=" ++ toString (12 * 3) ++ ")*('Mortgage Calculator'!E$23:E$382)), \"\")"
      ∧ interestPaidFormula 3 =
        "=IF(B" ++ toString (4 + 3) ++ "<>\"\", SUMPRODUCT(('Mortgage Calculator'!B$23:B$382>=" ++ toString (12 * (3 - 1) + 1) ++ ")*('Mortgage Calculator'!B$23:B$382<=" ++ toString (12 * 3) ++ ")*('Mortgage Calculator'!F$23:F$382)), \"\")"
      ∧ totalPaidFormula 3 =
        "=IF(B" ++ toString (4 + 3) ++ "<>\"\", C" ++ toString (4 + 3) ++ "+D" ++ toString (4 + 3) ++ ", \"\")"
      ∧ yearNumberFormula 3 =
        "=IF(" ++ toString 3 ++ "<='Mortgage Calculator'!C$8, " ++ toString 3 ++ ", \"\")"
      ∧ (2 < 3 → renderYearNumber 2 3 = none)
      ∧ (3 ≤ 2 → renderYearNumber 2 3 = some 3)) :=
  ⟨⟨by decide, by decide⟩, yearly_aggregates 2 3 (by decide) (by decide)⟩

/-- C6 counterexample: the total-amount-paid formula `=C13*C14` references the
result cells C13 and C14 and references no input cell at all, so it is false
that each result-block formula references only the four input cells. -/
theorem result_formulas_counterexample :
    refCells totalAmountPaidFormula = [('C', 13), ('C', 14)]
    ∧ ('C', 13) ∉ inputCells ∧ ('C', 14) ∉ inputCells := by decide

/-- C6 (amended): each of the five result-block formulas references only the
four input cells C6-C9 and earlier result cells C13-C16 of the same block;
the monthly-payment and total-payments formulas reference inputs only, while
total amount paid, total interest and the interest-to-principal share chain
through the earlier results. -/
theorem result_formula_references :
    refCells monthlyPaymentFormula = [('C', 7), ('C', 8), ('C', 6)]
    ∧ refCells totalPaymentsFormula = [('C', 8)]
    ∧ refCells totalAmountPaidFormula = [('C', 13), ('C', 14)]
    ∧ refCells totalInterestPaidFormula = [('C', 15), ('C', 6)]
    ∧ refCells interestRatioFormula = [('C', 16), ('C', 6)]
    ∧ ((refCells monthlyPaymentFormula ++ refCells totalPaymentsFormula
        ++ refCells totalAmountPaidFormula ++ refCells totalInterestPaidFormula
        ++ refCells interestRatioFormula).all fun r =>
          inputCells.contains r || [('C', 13), ('C', 14), ('C', 15), ('C', 16)].contains r) = true := by
  decide

/-- C7: every input cell stays a literal value, never a formula: the four
input rows hold literal numbers or a literal text date, and the extra-payment
cell of every amortization row holds the literal number 0. -/
theorem input_cells_literal (i : Nat) (h1 : 1 ≤ i) (h2 : i ≤ 360) :
    (inputs.all fun r => r.value.isLiteral) = true
    ∧ (extraPaymentValue i).isLiteral = true := by
  exact ⟨by decide, rfl⟩

/-- Witness for C7 at `i = 1`. -/
theorem input_cells_literal_witness :
    (1 ≤ 1 ∧ 1 ≤ 360)
    ∧ ((inputs.all fun r => r.value.isLiteral) = true
      ∧ (extraPaymentValue 1).isLiteral = true) :=
  ⟨⟨by decide, by decide⟩, input_cells_literal 1 (by decide) (by decide)⟩

/-- C8: the script produces one workbook saved as
`Mortgage_Payment_Calculator.xlsx` whose sheets are exactly "Mortgage
Calculator", "Yearly Summary", "Instructions" in that order, prints the
filename on success and returns it. -/
theorem workbook_output :
    create_mortgage_calculator.filename = "Mortgage_Payment_Calculator.xlsx"
    ∧ create_mortgage_calculator.sheets =
        ["Mortgage Calculator", "Yearly Summary", "Instructions"]
    ∧ create_mortgage_calculator.printed =
        "Successfully created: Mortgage_Payment_Calculator.xlsx"
    ∧ create_mortgage_calculator.returned = create_mortgage_calculator.filename := by
  exact ⟨rfl, rfl, rfl, rfl⟩

/-- C9 counterexample: the start-date input cell C9 receives no number format
at all — the input loop skips the `number_format` assignment exactly when the
format string is "YYYY-MM-DD" — so C9 does not carry a date display format. -/
theorem input_formats_counterexample :
    (inputAt "C9").map appliedNumberFormat = some none
    ∧ (inputAt "C9").map (fun r => r.fmt) = some "YYYY-MM-DD" := by decide

/-- C9 (amended): the loan-amount cell carries the currency format, the rate
cell the percentage format and the term cell the integer format, while the
start-date cell receives no number-format annotation at all. -/
theorem input_formats :
    inputs.map appliedNumberFormat =
      [some currency_format, some percent_format, some "0", none] := by decide

/-- C10: the start-date cell C9 holds the plain text string "2025-01-01", is
the only input cell with no number format applied, and every payment-date
formula passes C$9 — hence a text-typed cell — as the first argument of
EDATE. -/
theorem start_date_text_cell (i : Nat) (h1 : 1 ≤ i) (h2 : i ≤ 360) :
    (inputAt "C9").map (fun r => r.value) = some (.str "2025-01-01")
    ∧ (inputAt "C9").map appliedNumberFormat = some none
    ∧ (inputs.filter (fun r => appliedNumberFormat r == none)).map (fun r => r.valueCell) = ["C9"]
    ∧ paymentDateFormula i =
        "=IF(B" ++ toString (22 + i) ++ "<>\"\", EDATE(C$9, " ++ toString i ++ "-1), \"\")" := by
  exact ⟨by decide, by decide, by decide, rfl⟩

/-- Witness for C10 at `i = 360`. -/
theorem start_date_text_cell_witness :
    (1 ≤ 360 ∧ 360 ≤ 360)
    ∧ ((inputAt "C9").map (fun r => r.value) = some (.str "2025-01-01")
      ∧ (inputAt "C9").map appliedNumberFormat = some none
      ∧ (inputs.filter (fun r => appliedNumberFormat r == none)).map (fun r => r.valueCell) = ["C9"]
      ∧ paymentDateFormula 360 =
          "=IF(B" ++ toString (22 + 360) ++ "<>\"\", EDATE(C$9, " ++ toString 360 ++ "-1), \"\")") :=
  ⟨⟨by decide, by decide⟩, start_date_text_cell 360 (by decide) (by decide)⟩
